import Mathlib

/-!
Verification of the collapsing-header / collapsing-state engine of the egui
repository (crates/egui/src/containers/collapsing_state.rs and
collapsing_header.rs), as a shallow embedding.

Modelling conventions:
 * `f32` scalars (openness, heights, coordinates) are embedded as `ℚ`; the
   code under study performs only comparisons, `min`, and linear remaps, so
   the arithmetic is exact.
 * Widget identities (`egui::Id`) are embedded as `ℕ`.
 * The layout/paint engine is reduced to its y-axis, which is the only axis
   the collapsing engine manipulates: a `Ui` is its clip-rect bottom, the top
   of the region the body renders into, and the bottom of the occupied
   (`min_rect`) region.  Body callbacks are explicit functions from the child
   `Ui` to a result, the final occupied bottom, and a threaded caller state
   (used to observe how often the callback runs).
 * The external collaborators (persisted store, animation utility, repaint
   signal) live in an explicit `Context` record that every operation threads.
-/

/-- Modelled from the spec: identity of a persisted widget record.  The real
`egui::Id` is an opaque hash; only stability and equality matter here. -/
abbrev WidgetId := ℕ

/-- Modelled from the spec: emath linear interpolation, `lerp(a..=b, t)`. -/
def lerp (a b t : ℚ) : ℚ := a + t * (b - a)

/-- Modelled from the spec: emath `remap(x, x0..=x1, y0..=y1)` — linearly
remaps `x` from the source range to the target range. -/
def remap (x x0 x1 y0 y1 : ℚ) : ℚ := lerp y0 y1 ((x - x0) / (x1 - x0))

/-- Modelled from the spec: emath `remap_clamp` — like `remap` but clamping
the input to the source range first. -/
def remap_clamp (x x0 x1 y0 y1 : ℚ) : ℚ :=
  if x ≤ x0 then y0
  else if x1 ≤ x then y1
  else remap x x0 x1 y0 y1

/-- Modelled from the spec: a 2D point (emath `Pos2`), needed for the icon
geometry. -/
structure Pos2 where
  x : ℚ
  y : ℚ
deriving DecidableEq

/-- Modelled from the spec: an axis-aligned rectangle (emath `Rect`). -/
structure Rect where
  min : Pos2
  max : Pos2
deriving DecidableEq

def Rect.center (r : Rect) : Pos2 := ⟨(r.min.x + r.max.x) / 2, (r.min.y + r.max.y) / 2⟩

def Rect.width (r : Rect) : ℚ := r.max.x - r.min.x

def Rect.height (r : Rect) : ℚ := r.max.y - r.min.y

/-- Modelled from the spec: `Rect::from_center_size`. -/
def Rect.from_center_size (c : Pos2) (w h : ℚ) : Rect :=
  ⟨⟨c.x - w / 2, c.y - h / 2⟩, ⟨c.x + w / 2, c.y + h / 2⟩⟩

/-- Modelled from the spec: `Rect::expand` by the visual-style expansion. -/
def Rect.expand (r : Rect) (d : ℚ) : Rect :=
  ⟨⟨r.min.x - d, r.min.y - d⟩, ⟨r.max.x + d, r.max.y + d⟩⟩

def Rect.left_top (r : Rect) : Pos2 := ⟨r.min.x, r.min.y⟩

def Rect.right_top (r : Rect) : Pos2 := ⟨r.max.x, r.min.y⟩

def Rect.center_bottom (r : Rect) : Pos2 := ⟨(r.min.x + r.max.x) / 2, r.max.y⟩

/-- Modelled from the spec: the persisted key/value store, `get` on an
association list keyed by identity.  The store keys by (identity, record
type); the two record types live in two separate lists in `Context`. -/
def get_persisted {α : Type} (data : List (WidgetId × α)) (id : WidgetId) : Option α :=
  (data.find? (fun p => p.1 == id)).map (fun p => p.2)

/-- Modelled from the spec: the persisted store's `insert`. -/
def insert_persisted {α : Type} (data : List (WidgetId × α)) (id : WidgetId) (v : α) : List (WidgetId × α) :=
  (id, v) :: data.filter (fun p => p.1 != id)

/-- Modelled from the spec: the persisted store's `remove`. -/
def remove_persisted {α : Type} (data : List (WidgetId × α)) (id : WidgetId) : List (WidgetId × α) :=
  data.filter (fun p => p.1 != id)

/-- Persisted record for window-like containers (`WindowStoreState`):
open flag, hidden flag, cached open height. -/
structure WindowStoreState where
  «open» : Bool
  hidden : Bool
  open_height : Option ℚ
deriving DecidableEq

/-- Persisted record for generic collapsing widgets (`WidgetStoreState`):
open flag and cached open height. -/
structure WidgetStoreState where
  «open» : Bool
  open_height : Option ℚ
deriving DecidableEq

/-- Modelled from the spec: the ambient `egui::Context`, reduced to the two
collaborators the collapsing engine uses — the persisted store (one list per
record type, so the two record shapes never collide), the animation utility
`animate_bool` (an external, per-identity tween, embedded as an opaque
function of identity and target), the `everything_is_visible` debug flag, and
a counter of repaint requests. -/
structure Context where
  window_data : List (WidgetId × WindowStoreState)
  widget_data : List (WidgetId × WidgetStoreState)
  animate : WidgetId → Bool → ℚ
  everything_is_visible : Bool
  repaint_requests : ℕ

/-- Modelled from the spec: `Context::request_repaint` — a fire-and-forget
signal, embedded as a counter increment. -/
def Context.request_repaint (ctx : Context) : Context :=
  { ctx with repaint_requests := ctx.repaint_requests + 1 }

/-- Modelled from the spec: `Context::animate_bool` delegates to the
animation utility for the given identity and target. -/
def Context.animate_bool (ctx : Context) (id : WidgetId) (target : Bool) : ℚ :=
  ctx.animate id target

/-- `WindowCollapsingState`: an identity together with a transient copy of
its window-variant persisted record. -/
structure WindowCollapsingState where
  id : WidgetId
  state : WindowStoreState
deriving DecidableEq

/-- `WidgetCollapsingState`: an identity together with a transient copy of
its widget-variant persisted record. -/
structure WidgetCollapsingState where
  id : WidgetId
  state : WidgetStoreState
deriving DecidableEq

/-- The `CollapsingState` trait: accessors shared by the window and widget
variants.  Rust's `open_height(&mut self) -> &mut Option<f32>` is split into
a reader `open_height` and a writer `set_open_height`. -/
class CollapsingState (τ : Type) where
  store : τ → Context → Context
  remove : τ → Context → Context
  id : τ → WidgetId
  is_open : τ → Bool
  set_open : τ → Bool → τ
  open_height : τ → Option ℚ
  set_open_height : τ → Option ℚ → τ

/-- Trait-provided method `toggle_open`: flip the logical state and request
a repaint (the repaint keeps the animation progressing). -/
def CollapsingState.toggle_open {τ : Type} [CollapsingState τ] (s : τ) (ctx : Context) :
    τ × Context :=
  (CollapsingState.set_open s (!CollapsingState.is_open s), ctx.request_repaint)

/-- Trait-provided method `openness`: 0 for closed, 1 for open, with
tweening; short-circuits to 1 under the `everything_is_visible` debug
override, otherwise delegates to the animation utility with the logical open
state as target. -/
def CollapsingState.openness {τ : Type} [CollapsingState τ] (s : τ) (ctx : Context) : ℚ :=
  if ctx.everything_is_visible then 1
  else ctx.animate_bool (CollapsingState.id s) (CollapsingState.is_open s)

instance instCollapsingWindow : CollapsingState WindowCollapsingState where
  store s ctx := { ctx with window_data := insert_persisted ctx.window_data s.id s.state }
  remove s ctx := { ctx with window_data := remove_persisted ctx.window_data s.id }
  id s := s.id
  is_open s := s.state.«open»
  set_open s b := { s with state := { s.state with «open» := b } }
  open_height s := s.state.open_height
  set_open_height s h := { s with state := { s.state with open_height := h } }

instance instCollapsingWidget : CollapsingState WidgetCollapsingState where
  store s ctx := { ctx with widget_data := insert_persisted ctx.widget_data s.id s.state }
  remove s ctx := { ctx with widget_data := remove_persisted ctx.widget_data s.id }
  id s := s.id
  is_open s := s.state.«open»
  set_open s b := { s with state := { s.state with «open» := b } }
  open_height s := s.state.open_height
  set_open_height s h := { s with state := { s.state with open_height := h } }

/-- `WindowCollapsingState::load`: read the persisted record for `id`, or
synthesize `⟨default_open, hidden := false, open_height := none⟩` when
absent.  The `Context` is returned as `data_mut` leaves it: unchanged (the
lookup is a pure read with fallback). -/
def WindowCollapsingState.load (ctx : Context) (id : WidgetId) (default_open : Bool) :
    WindowCollapsingState × Context :=
  (((get_persisted ctx.window_data id).map (fun state => WindowCollapsingState.mk id state)).getD
      ⟨id, ⟨default_open, false, none⟩⟩,
    ctx)

/-- `WidgetCollapsingState::load`: read the persisted record for `id`, or
synthesize `⟨default_open, open_height := none⟩` when absent.  The `Context`
is returned as `data_mut` leaves it: unchanged. -/
def WidgetCollapsingState.load (ctx : Context) (id : WidgetId) (default_open : Bool) :
    WidgetCollapsingState × Context :=
  (((get_persisted ctx.widget_data id).map (fun state => WidgetCollapsingState.mk id state)).getD
      ⟨id, ⟨default_open, none⟩⟩,
    ctx)

/-- Modelled from the spec: the layout engine's `Ui`, projected onto the y
axis (the only axis the body renderer manipulates): the bottom of the
current clip rect, the top of the region the next child renders into, and
the bottom of the occupied (`min_rect`) region. -/
structure UiY where
  clip_bot : ℚ
  top : ℚ
  min_bot : ℚ
deriving DecidableEq

/-- Namespace holder mirroring the source's `CommonCollapse` impl block. -/
def CommonCollapse : Unit := ()

/-- `CommonCollapse::show_body_unindented`, the two-pass height-animated
reveal/hide algorithm.  The body callback `add_body` receives the child `Ui`
it renders into and a threaded caller state `σ` (so invocation counts are
observable); it returns its result, the bottom of the child's occupied
region (from which `min_rect.height()` is measured), and the new caller
state.  The function returns the optional body result paired with the
externally reported occupied bottom, the updated collapsing state, the
updated context, and the final caller state. -/
def CommonCollapse.show_body_unindented {τ σ R : Type} [CollapsingState τ]
    (component : τ) (ctx : Context) (ui : UiY)
    (add_body : UiY → σ → R × ℚ × σ) (s0 : σ) :
    Option (R × ℚ) × τ × Context × σ :=
  if CollapsingState.openness component ctx ≤ 0 then
    -- we store any earlier toggling as promised in the docstring
    (none, component, CollapsingState.store component ctx, s0)
  else if CollapsingState.openness component ctx < 1 then
    let max_height : ℚ :=
      if CollapsingState.is_open component && (CollapsingState.open_height component).isNone then
        -- First frame of expansion: placeholder height that shows movement.
        10
      else
        remap_clamp (CollapsingState.openness component ctx) 0 1 0
          ((CollapsingState.open_height component).getD 0)
    let child : UiY := ⟨min ui.clip_bot (ui.top + max_height), ui.top, ui.top⟩
    let res := add_body child s0
    let component1 := CollapsingState.set_open_height component (some (res.2.1 - ui.top))
    -- Pretend children took up at most `max_height` space.
    (some (res.1, min res.2.1 (ui.top + max_height)), component1,
      CollapsingState.store component1 ctx, res.2.2)
  else
    let child : UiY := ⟨ui.clip_bot, ui.top, ui.top⟩
    let res := add_body child s0
    let component1 := CollapsingState.set_open_height component (some (res.2.1 - ui.top))
    (some (res.1, res.2.1), component1, CollapsingState.store component1 ctx, res.2.2)

/-- `CommonCollapse::show_body_indented`: same animation semantics as
`show_body_unindented`, with the body wrapped in `ui.indent` and
`expand_to_include_x header_right`.  Both of those act on the x axis only,
which this y-axis model does not track, so the wrapper passes the callback
through unchanged; `header_right` is kept for signature fidelity. -/
def CommonCollapse.show_body_indented {τ σ R : Type} [CollapsingState τ]
    (component : τ) (_header_right : ℚ) (ctx : Context) (ui : UiY)
    (add_body : UiY → σ → R × ℚ × σ) (s0 : σ) :
    Option (R × ℚ) × τ × Context × σ :=
  CommonCollapse.show_body_unindented component ctx ui add_body s0

/-- `WidgetDisplayEvent`: an event to expand / collapse the widget
programmatically. -/
inductive WidgetDisplayEvent where
  | Expand
  | Collapse
  | ToggleCollapse
deriving DecidableEq

/-- The record of a painted default icon.  The source builds three triangle
points and applies `Rot2::from_angle(remap(openness, 0.0..=1.0, -TAU/4.0..=0.0))`
about the rect's center; since sine and cosine of that angle are
transcendental, the rotation is recorded exactly as data — the center and
the angle measured in turns (radians divided by TAU), so `-1/4` turn is
`-TAU/4` radians, i.e. -90 degrees. -/
structure PaintedIcon where
  rect : Rect
  base_points : List Pos2
  rotation_center : Pos2
  angle_turns : ℚ
deriving DecidableEq

/-- `CommonCollapse::paint_default_icon`: shrink the response rect to 75% of
its size about its center, expand by the visual-style expansion, take the
triangle `left_top, right_top, center_bottom`, and rotate it about the
rect's center by `remap(openness, 0..=1, -TAU/4..=0)` — here recorded in
turns, `remap openness 0 1 (-(1/4)) 0`. -/
def CommonCollapse.paint_default_icon (response_rect : Rect) (expansion : ℚ) (openness : ℚ) :
    PaintedIcon :=
  let rect := response_rect
  let rect := Rect.from_center_size rect.center (rect.width * (3 / 4)) (rect.height * (3 / 4))
  let rect := rect.expand expansion
  { rect := rect
    base_points := [rect.left_top, rect.right_top, rect.center_bottom]
    rotation_center := rect.center
    angle_turns := remap openness 0 1 (-(1 / 4)) 0 }

/-- Namespace holder mirroring the source's `CollapsingHeader` type; the
builder's fields relevant to the claims (`default_open`, `open`,
`display_event`) are passed explicitly to `begin_state`. -/
def CollapsingHeader : Unit := ()

/-- The state/event-handling core of `CollapsingHeader::begin`
(collapsing_header.rs lines 223-244): load the state, apply an explicit
display event if any (which forces a repaint and suppresses the open
override and click handling for this frame), otherwise apply the `open`
override (toggling and marking the response changed when it differs from
the current state), otherwise toggle on a direct click.  Returns the state,
the context, and whether the header response was marked changed.  The
layout/paint part of `begin` is external and does not touch this logic. -/
def CollapsingHeader.begin_state (ctx : Context) (id : WidgetId) (default_open : Bool)
    («open» : Option Bool) (display_event : Option WidgetDisplayEvent) (clicked : Bool) :
    WidgetCollapsingState × Context × Bool :=
  let lc := WidgetCollapsingState.load ctx id default_open
  let ctx := lc.2
  let request_repaint := display_event.isSome
  let state :=
    match display_event with
    | some .Expand => CollapsingState.set_open lc.1 true
    | some .Collapse => CollapsingState.set_open lc.1 false
    | some .ToggleCollapse => CollapsingState.set_open lc.1 (!CollapsingState.is_open lc.1)
    | none => lc.1
  if request_repaint then
    (state, ctx.request_repaint, false)
  else
    match «open» with
    | some o =>
      if o ≠ CollapsingState.is_open state then
        let tc := CollapsingState.toggle_open state ctx
        (tc.1, tc.2, true)
      else
        (state, ctx, false)
    | none =>
      if clicked then
        let tc := CollapsingState.toggle_open state ctx
        (tc.1, tc.2, true)
      else
        (state, ctx, false)

/-- `CollapsingHeader::begin`: asserts that the surrounding layout's main
direction is vertical (panicking otherwise — embedded as `Except.error` with
the source's assertion message), then runs the state/event-handling core. -/
def CollapsingHeader.begin (main_dir_is_vertical : Bool) (ctx : Context) (id : WidgetId)
    (default_open : Bool) («open» : Option Bool) (display_event : Option WidgetDisplayEvent)
    (clicked : Bool) :
    Except String (WidgetCollapsingState × Context × Bool) :=
  if main_dir_is_vertical then
    Except.ok (CollapsingHeader.begin_state ctx id default_open «open» display_event clicked)
  else
    Except.error ("Horizontal collapsing is unimplemented")

/-- The response from showing a `CollapsingHeader`.  The header `Response`
is reduced to its `changed` flag; the body response is reduced to the
reported occupied bottom of the body region. -/
structure CollapsingResponse (R : Type) where
  header_changed : Bool
  body_response : Option ℚ
  body_returned : Option R
  openness : ℚ

/-- Modelled from the spec: the layout engine's `Ui::vertical` runs its
content in a child scope whose layout main direction is top-down — i.e.
vertical — whatever the surrounding layout's direction is. -/
def Ui.vertical_child_is_vertical (_surrounding_main_dir_is_vertical : Bool) : Bool :=
  true

/-- `CollapsingHeader::show_dyn` (also `show` with `indented := true` and
`show_unindented` with `indented := false`): wrap everything in
`ui.vertical` ("make sure body is below header, and make sure it is one
unit"), run `begin` — which therefore sees the vertical child layout, not
the surrounding one — then the indented or unindented body renderer, and
package the `CollapsingResponse`, setting `body_response` and
`body_returned` together from the body renderer's optional result. -/
def CollapsingHeader.show_dyn {σ R : Type} (surrounding_main_dir_is_vertical : Bool)
    (ctx : Context) (id : WidgetId) (default_open : Bool) («open» : Option Bool)
    (display_event : Option WidgetDisplayEvent) (clicked : Bool) (ui : UiY)
    (add_body : UiY → σ → R × ℚ × σ) (s0 : σ) (indented : Bool) :
    Except String (CollapsingResponse R × WidgetCollapsingState × Context × σ) :=
  match CollapsingHeader.begin (Ui.vertical_child_is_vertical surrounding_main_dir_is_vertical)
      ctx id default_open «open» display_event clicked with
  | Except.error e => Except.error e
  | Except.ok bc =>
    let state := bc.1
    let ctx1 := bc.2.1
    let changed := bc.2.2
    let opn := CollapsingState.openness state ctx1
    let r :=
      if indented then
        CommonCollapse.show_body_indented state 0 ctx1 ui add_body s0
      else
        CommonCollapse.show_body_unindented state ctx1 ui add_body s0
    match r with
    | (some br, state2, ctx2, s1) =>
      Except.ok (⟨changed, some br.2, some br.1, opn⟩, state2, ctx2, s1)
    | (none, state2, ctx2, s1) =>
      Except.ok (⟨changed, none, none, opn⟩, state2, ctx2, s1)

/-- `CollapsingResponse::fully_closed`. -/
def CollapsingResponse.fully_closed {R : Type} (r : CollapsingResponse R) : Bool :=
  r.openness ≤ 0

/-- `CollapsingResponse::fully_open`. -/
def CollapsingResponse.fully_open {R : Type} (r : CollapsingResponse R) : Bool :=
  1 ≤ r.openness

/-! Concrete fixtures used by the witness theorems. -/

/-- A context with no persisted records and an animation stuck at 0. -/
def ctxZero : Context := ⟨[], [], fun _ _ => 0, false, 0⟩

/-- A context with no persisted records and an animation stuck at 1/2. -/
def ctxHalf : Context := ⟨[], [], fun _ _ => 1 / 2, false, 0⟩

/-- A context with no persisted records and an animation stuck at 1. -/
def ctxOne : Context := ⟨[], [], fun _ _ => 1, false, 0⟩

/-- A context with the `everything_is_visible` debug override active while
the animation utility would report 1/3. -/
def ctxVis : Context := ⟨[], [], fun _ _ => 1 / 3, true, 0⟩

/-- A context holding one persisted record of each variant under identity 3. -/
def ctxStored : Context :=
  ⟨[(3, ⟨true, false, some 17⟩)], [(3, ⟨true, some 17⟩)], fun _ _ => 0, false, 0⟩

/-- An open widget state with a remembered height. -/
def wOpenEx : WidgetCollapsingState := ⟨7, ⟨true, some 42⟩⟩

/-- A closed widget state with no remembered height. -/
def wClosedEx : WidgetCollapsingState := ⟨7, ⟨false, none⟩⟩

/-- A window state used by witnesses. -/
def vOpenEx : WindowCollapsingState := ⟨9, ⟨true, false, some 5⟩⟩

/-- A parent region: clip bottom 100, body top 20. -/
def uiEx : UiY := ⟨100, 20, 20⟩

/-- A body callback producing result 5, occupying 30 units below the top of
the region it is given, and bumping an invocation counter. -/
def addBodyEx : UiY → ℕ → ℕ × ℚ × ℕ := fun u n => (5, u.top + 30, n + 1)

/-- C2: for every call to `show_body_unindented` with current openness at
most 0, the body-render callback is never invoked — the result is computed
without touching `add_body`, so the threaded caller state comes back as
`s0` — the state is persisted to the store, and the body result is `none`. -/
theorem show_body_closed_skips_body {τ σ R : Type} [CollapsingState τ]
    (component : τ) (ctx : Context) (ui : UiY) (add_body : UiY → σ → R × ℚ × σ) (s0 : σ)
    (h : CollapsingState.openness component ctx ≤ 0) :
    CommonCollapse.show_body_unindented component ctx ui add_body s0 =
      (none, component, CollapsingState.store component ctx, s0) := by
  simp [CommonCollapse.show_body_unindented, h]

/-- Witness for C2: a fully closed widget state with the animation at 0. -/
theorem show_body_closed_skips_body_witness :
    CommonCollapse.show_body_unindented wClosedEx ctxZero uiEx addBodyEx 0 =
      (none, wClosedEx, CollapsingState.store wClosedEx ctxZero, 0) :=
  show_body_closed_skips_body wClosedEx ctxZero uiEx addBodyEx 0 (by decide)

/-- C3: for every call to `show_body_unindented` with current openness at
least 1, the body-render callback is invoked exactly once (the final caller
state is one application of `add_body`), on a child region whose clip bottom
is the parent's clip bottom (no clipping applied), the new collapsing state
is the old one with `open_height` set to exactly the measured rendered
height, that state is persisted, and the result is `some`, reporting the
body's unclamped occupied bottom. -/
theorem show_body_fully_open_renders_once {τ σ R : Type} [CollapsingState τ]
    (component : τ) (ctx : Context) (ui : UiY) (add_body : UiY → σ → R × ℚ × σ) (s0 : σ)
    (h : 1 ≤ CollapsingState.openness component ctx) :
    CommonCollapse.show_body_unindented component ctx ui add_body s0 =
      (let child : UiY := ⟨ui.clip_bot, ui.top, ui.top⟩
       let res := add_body child s0
       let component1 := CollapsingState.set_open_height component (some (res.2.1 - ui.top))
       (some (res.1, res.2.1), component1, CollapsingState.store component1 ctx, res.2.2)) := by
  have h0 : ¬ CollapsingState.openness component ctx ≤ 0 := by linarith
  have h1 : ¬ CollapsingState.openness component ctx < 1 := by linarith
  simp [CommonCollapse.show_body_unindented, h0, h1]

/-- Witness for C3: an open widget state with the animation settled at 1;
the body occupies 30 units, so `open_height` becomes 30 exactly. -/
theorem show_body_fully_open_renders_once_witness :
    CommonCollapse.show_body_unindented wOpenEx ctxOne uiEx addBodyEx 0 =
      (let child : UiY := ⟨uiEx.clip_bot, uiEx.top, uiEx.top⟩
       let res := addBodyEx child 0
       let component1 := CollapsingState.set_open_height wOpenEx (some (res.2.1 - uiEx.top))
       (some (res.1, res.2.1), component1, CollapsingState.store component1 ctxOne, res.2.2)) :=
  show_body_fully_open_renders_once wOpenEx ctxOne uiEx addBodyEx 0 (by decide)

/-- C6: `toggle_open` is an involution on the logical open flag for both
state variants; each `toggle_open` is exactly a `set_open` to the negated
flag together with one repaint request on the context (so the repaint comes
from `toggle_open`, while `set_open` itself has no context effect — its
embedding neither takes nor returns a `Context`); and `set_open` does set
the logical state. -/
theorem toggle_open_involution (w : WidgetCollapsingState) (v : WindowCollapsingState)
    (ctx ctx2 : Context) (b : Bool) :
    CollapsingState.is_open
        (CollapsingState.toggle_open (CollapsingState.toggle_open w ctx).1 ctx2).1 =
      CollapsingState.is_open w
    ∧ CollapsingState.is_open
        (CollapsingState.toggle_open (CollapsingState.toggle_open v ctx).1 ctx2).1 =
      CollapsingState.is_open v
    ∧ CollapsingState.toggle_open w ctx =
      (CollapsingState.set_open w (!CollapsingState.is_open w), ctx.request_repaint)
    ∧ CollapsingState.toggle_open v ctx =
      (CollapsingState.set_open v (!CollapsingState.is_open v), ctx.request_repaint)
    ∧ (CollapsingState.toggle_open w ctx).2.repaint_requests = ctx.repaint_requests + 1
    ∧ CollapsingState.is_open (CollapsingState.set_open w b) = b
    ∧ CollapsingState.is_open (CollapsingState.set_open v b) = b := by
  refine ⟨?_, ?_, rfl, rfl, rfl, rfl, rfl⟩ <;>
    simp [CollapsingState.toggle_open, CollapsingState.is_open, CollapsingState.set_open]

/-- C7: `openness` returns exactly 1 when the `everything_is_visible`
override is active, and otherwise delegates to the animation utility
(`animate_bool`) with the widget's identity and current logical open state
as target. -/
theorem openness_override_or_animate {τ : Type} [CollapsingState τ] (s : τ) (ctx : Context) :
    (ctx.everything_is_visible = true → CollapsingState.openness s ctx = 1)
    ∧ (ctx.everything_is_visible = false →
        CollapsingState.openness s ctx =
          ctx.animate_bool (CollapsingState.id s) (CollapsingState.is_open s)) := by
  constructor <;> intro h <;> simp [CollapsingState.openness, h]

/-- Witness for C7: under the debug override the openness is 1 even though
the animation utility would report 1/3; without it the animation's value
(here 1/2) is returned. -/
theorem openness_override_or_animate_witness :
    CollapsingState.openness wOpenEx ctxVis = 1
    ∧ CollapsingState.openness wOpenEx ctxHalf =
        ctxHalf.animate_bool (CollapsingState.id wOpenEx) (CollapsingState.is_open wOpenEx) :=
  ⟨(openness_override_or_animate wOpenEx ctxVis).1 rfl,
   (openness_override_or_animate wOpenEx ctxHalf).2 rfl⟩

/-- C9 counterexample: showing a `CollapsingHeader` from a surrounding
layout whose main direction is not vertical does not panic — `show_dyn`
wraps its content in `ui.vertical` before calling `begin`, so the assertion
sees the vertical child layout and the call returns `Except.ok`. -/
theorem show_in_horizontal_layout_does_not_panic :
    (CollapsingHeader.show_dyn false ctxZero 7 false none none false uiEx
        addBodyEx 0 true).isOk = true := by
  decide

/-- C9 (amended): the vertical-layout precondition is asserted inside
`begin`: run in a Ui whose layout main direction is not vertical, `begin`
fails loudly with the source's assertion message rather than silently
degrading; but the public `show`/`show_unindented` path (`show_dyn`) wraps
its content in `ui.vertical` before calling `begin`, so the surrounding
layout's direction never reaches the assertion — showing is insensitive to
the surrounding direction and returns successfully instead of panicking. -/
theorem begin_nonvertical_asserts {σ R : Type} (ctx : Context) (id : WidgetId) (d : Bool)
    («open» : Option Bool) (ev : Option WidgetDisplayEvent) (clicked : Bool) (ui : UiY)
    (add_body : UiY → σ → R × ℚ × σ) (s0 : σ) (indented sv : Bool) :
    CollapsingHeader.begin false ctx id d «open» ev clicked =
      Except.error ("Horizontal collapsing is unimplemented")
    ∧ CollapsingHeader.show_dyn sv ctx id d «open» ev clicked ui add_body s0 indented =
      CollapsingHeader.show_dyn true ctx id d «open» ev clicked ui add_body s0 indented
    ∧ (CollapsingHeader.show_dyn sv ctx id d «open» ev clicked ui add_body s0 indented).isOk
      = true := by
  refine ⟨by simp [CollapsingHeader.begin], rfl, ?_⟩
  simp only [CollapsingHeader.show_dyn, Ui.vertical_child_is_vertical, CollapsingHeader.begin,
    if_true]
  split <;> rfl

/-- C1: for every call to `show_body_unindented` with current openness
strictly between 0 and 1, the body renders inside a child region whose clip
height cap is 10 (the placeholder) when the logical state is open and
`open_height` is still `none`, and otherwise the linear remap of openness
from `[0,1]` to `[0, open_height.getD 0]` (for openness in the open
interval, `remap_clamp` is exactly the linear map `openness * full_height`);
the child's clip bottom is the parent's clip bottom intersected with
`top + cap`; after the body renders, the measured height becomes the new
`open_height`, that state is persisted, and the externally reported
occupied height is clamped to at most the clip height cap. -/
theorem show_body_mid_animation_clips_and_measures {τ σ R : Type} [CollapsingState τ]
    (component : τ) (ctx : Context) (ui : UiY) (add_body : UiY → σ → R × ℚ × σ) (s0 : σ)
    (h0 : 0 < CollapsingState.openness component ctx)
    (h1 : CollapsingState.openness component ctx < 1) :
    (CommonCollapse.show_body_unindented component ctx ui add_body s0 =
      (let max_height : ℚ :=
        if CollapsingState.is_open component
            && (CollapsingState.open_height component).isNone then 10
        else
          remap_clamp (CollapsingState.openness component ctx) 0 1 0
            ((CollapsingState.open_height component).getD 0)
       let child : UiY := ⟨min ui.clip_bot (ui.top + max_height), ui.top, ui.top⟩
       let res := add_body child s0
       let component1 := CollapsingState.set_open_height component (some (res.2.1 - ui.top))
       (some (res.1, min res.2.1 (ui.top + max_height)), component1,
         CollapsingState.store component1 ctx, res.2.2)))
    ∧ (∀ full_height : ℚ,
        remap_clamp (CollapsingState.openness component ctx) 0 1 0 full_height =
          CollapsingState.openness component ctx * full_height)
    ∧ (∀ p ∈ (CommonCollapse.show_body_unindented component ctx ui add_body s0).1,
        p.2 - ui.top ≤
          (if CollapsingState.is_open component
              && (CollapsingState.open_height component).isNone then (10 : ℚ)
          else
            remap_clamp (CollapsingState.openness component ctx) 0 1 0
              ((CollapsingState.open_height component).getD 0))) := by
  have h0' : ¬ CollapsingState.openness component ctx ≤ 0 := not_le.mpr h0
  have h1' : ¬ (1 : ℚ) ≤ CollapsingState.openness component ctx := not_le.mpr h1
  have key : CommonCollapse.show_body_unindented component ctx ui add_body s0 =
      (let max_height : ℚ :=
        if CollapsingState.is_open component
            && (CollapsingState.open_height component).isNone then 10
        else
          remap_clamp (CollapsingState.openness component ctx) 0 1 0
            ((CollapsingState.open_height component).getD 0)
       let child : UiY := ⟨min ui.clip_bot (ui.top + max_height), ui.top, ui.top⟩
       let res := add_body child s0
       let component1 := CollapsingState.set_open_height component (some (res.2.1 - ui.top))
       (some (res.1, min res.2.1 (ui.top + max_height)), component1,
         CollapsingState.store component1 ctx, res.2.2)) := by
    simp only [CommonCollapse.show_body_unindented]
    rw [if_neg h0', if_pos h1]
  refine ⟨key, ?_, ?_⟩
  · intro full_height
    rw [remap_clamp, if_neg h0', if_neg h1']
    simp only [remap, lerp]
    ring
  · intro p hp
    rw [key] at hp
    simp only [Option.mem_def, Option.some_inj] at hp
    subst hp
    simp only []
    have := min_le_right (add_body
        ⟨min ui.clip_bot (ui.top +
            (if CollapsingState.is_open component
                && (CollapsingState.open_height component).isNone then (10 : ℚ)
            else
              remap_clamp (CollapsingState.openness component ctx) 0 1 0
                ((CollapsingState.open_height component).getD 0))), ui.top, ui.top⟩ s0).2.1
      (ui.top +
        (if CollapsingState.is_open component
            && (CollapsingState.open_height component).isNone then (10 : ℚ)
        else
          remap_clamp (CollapsingState.openness component ctx) 0 1 0
            ((CollapsingState.open_height component).getD 0)))
    linarith

/-- The widget state of the C1 witness after the body measured 30 units. -/
def wOpenMeasured : WidgetCollapsingState := ⟨7, ⟨true, some 30⟩⟩

/-- Witness for C1: openness 1/2 with a remembered height of 42 gives a clip
cap of 21; the body (top 20, bottom 50, so 30 units tall) is clipped at
bottom 41, `open_height` becomes 30, and the reported bottom is clamped from
50 down to 41. -/
theorem show_body_mid_animation_clips_and_measures_witness :
    CommonCollapse.show_body_unindented wOpenEx ctxHalf uiEx addBodyEx 0 =
      (some (5, 41), wOpenMeasured, CollapsingState.store wOpenMeasured ctxHalf, 1) := by
  rw [(show_body_mid_animation_clips_and_measures wOpenEx ctxHalf uiEx addBodyEx 0
    (by norm_num [CollapsingState.openness, Context.animate_bool, ctxHalf, instCollapsingWidget])
    (by norm_num [CollapsingState.openness, Context.animate_bool, ctxHalf,
      instCollapsingWidget])).1]
  norm_num [wOpenEx, uiEx, addBodyEx, wOpenMeasured, remap_clamp, remap, lerp,
    CollapsingState.openness, Context.animate_bool, ctxHalf, CollapsingState.is_open,
    CollapsingState.open_height, CollapsingState.set_open_height, instCollapsingWidget]

/-- C4: `load` is a pure read with fallback: when no record is persisted for
the identity it synthesizes one with `open = default_open`,
`open_height = none` (and `hidden = false` for the window variant) without
writing anything back (the context comes back unchanged); when a record
exists it returns that stored record. -/
theorem load_reads_or_defaults (ctx : Context) (id : WidgetId) (d : Bool) :
    (get_persisted ctx.widget_data id = none →
        WidgetCollapsingState.load ctx id d = (⟨id, ⟨d, none⟩⟩, ctx))
    ∧ (∀ s, get_persisted ctx.widget_data id = some s →
        WidgetCollapsingState.load ctx id d = (⟨id, s⟩, ctx))
    ∧ (get_persisted ctx.window_data id = none →
        WindowCollapsingState.load ctx id d = (⟨id, ⟨d, false, none⟩⟩, ctx))
    ∧ (∀ s, get_persisted ctx.window_data id = some s →
        WindowCollapsingState.load ctx id d = (⟨id, s⟩, ctx))
    ∧ (WidgetCollapsingState.load ctx id d).2 = ctx
    ∧ (WindowCollapsingState.load ctx id d).2 = ctx := by
  refine ⟨?_, ?_, ?_, ?_, rfl, rfl⟩
  · intro h
    simp [WidgetCollapsingState.load, h]
  · intro s h
    simp [WidgetCollapsingState.load, h]
  · intro h
    simp [WindowCollapsingState.load, h]
  · intro s h
    simp [WindowCollapsingState.load, h]

/-- Witness for C4: identity 7 is absent from both stores of `ctxZero`, so
defaults are synthesized and the context is untouched; identity 3 is present
in both stores of `ctxStored` and the stored records come back. -/
theorem load_reads_or_defaults_witness :
    WidgetCollapsingState.load ctxZero 7 true = (⟨7, ⟨true, none⟩⟩, ctxZero)
    ∧ WidgetCollapsingState.load ctxStored 3 false = (⟨3, ⟨true, some 17⟩⟩, ctxStored)
    ∧ WindowCollapsingState.load ctxZero 7 true = (⟨7, ⟨true, false, none⟩⟩, ctxZero)
    ∧ WindowCollapsingState.load ctxStored 3 false = (⟨3, ⟨true, false, some 17⟩⟩, ctxStored) :=
  ⟨(load_reads_or_defaults ctxZero 7 true).1 rfl,
   (load_reads_or_defaults ctxStored 3 false).2.1 ⟨true, some 17⟩ rfl,
   (load_reads_or_defaults ctxZero 7 true).2.2.1 rfl,
   (load_reads_or_defaults ctxStored 3 false).2.2.2.1 ⟨true, false, some 17⟩ rfl⟩

/-- C5: an explicit display event overrides click handling and the open
override for that frame (the result does not depend on either) and forces a
repaint request with no changed mark; `Expand` always leaves the state
logically open; with no event, an open override differing from the loaded
state toggles it, requests a repaint, and marks the response changed; with
neither, a direct click toggles the state likewise. -/
theorem begin_display_event_precedence (ctx : Context) (id : WidgetId) (d : Bool) :
    (∀ e o1 o2 c1 c2, CollapsingHeader.begin_state ctx id d o1 (some e) c1 =
        CollapsingHeader.begin_state ctx id d o2 (some e) c2)
    ∧ (∀ e o c, (CollapsingHeader.begin_state ctx id d o (some e) c).2 =
        (ctx.request_repaint, false))
    ∧ (∀ o c, CollapsingState.is_open
        (CollapsingHeader.begin_state ctx id d o (some WidgetDisplayEvent.Expand) c).1 = true)
    ∧ (∀ (b : Bool) c, b ≠ CollapsingState.is_open (WidgetCollapsingState.load ctx id d).1 →
        CollapsingHeader.begin_state ctx id d (some b) none c =
          (CollapsingState.set_open (WidgetCollapsingState.load ctx id d).1 b,
            ctx.request_repaint, true))
    ∧ (CollapsingHeader.begin_state ctx id d none none true =
        (CollapsingState.set_open (WidgetCollapsingState.load ctx id d).1
            (!CollapsingState.is_open (WidgetCollapsingState.load ctx id d).1),
          ctx.request_repaint, true)) := by
  refine ⟨?_, ?_, ?_, ?_, rfl⟩
  · intro e o1 o2 c1 c2
    rfl
  · intro e o c
    rfl
  · intro o c
    rfl
  · intro b c h
    have hb : b = !CollapsingState.is_open (WidgetCollapsingState.load ctx id d).1 := by
      cases b <;> cases hh : CollapsingState.is_open (WidgetCollapsingState.load ctx id d).1 <;>
        simp_all
    simp [CollapsingHeader.begin_state, CollapsingState.toggle_open, h, hb,
      WidgetCollapsingState.load]

/-- Witness for C5: on `ctxZero` (no stored record, so the state loads
closed), an `Expand` event makes the state open, and an open override of
`true` toggles the closed state, requests a repaint, and marks the response
changed. -/
theorem begin_display_event_precedence_witness :
    CollapsingState.is_open
        (CollapsingHeader.begin_state ctxZero 7 false none
          (some WidgetDisplayEvent.Expand) false).1 = true
    ∧ CollapsingHeader.begin_state ctxZero 7 false (some true) none false =
        (CollapsingState.set_open (WidgetCollapsingState.load ctxZero 7 false).1 true,
          ctxZero.request_repaint, true) :=
  ⟨(begin_display_event_precedence ctxZero 7 false).2.2.1 none false,
   (begin_display_event_precedence ctxZero 7 false).2.2.2.1 true false (by decide)⟩

/-- C8: `paint_default_icon` draws a triangle whose rect is 75% of the
region's size about its center, plus the visual-style expansion; the base
points are that rect's left-top, right-top, and center-bottom; the rotation
is about the rect's center (which coincides with the region's center); the
angle, in turns, is `remap openness 0 1 (-(1/4)) 0`, so openness 0 rotates
by -1/4 turn (-90 degrees, pointing right), openness 1 leaves the triangle
unrotated (pointing down), and the angle is linear in openness (it commutes
with `lerp`). -/
theorem paint_default_icon_rotating_triangle (r : Rect) (e : ℚ) (x a b t : ℚ) :
    (CommonCollapse.paint_default_icon r e x).rect =
      (Rect.from_center_size r.center (r.width * (3 / 4)) (r.height * (3 / 4))).expand e
    ∧ (CommonCollapse.paint_default_icon r e x).base_points =
      [(CommonCollapse.paint_default_icon r e x).rect.left_top,
        (CommonCollapse.paint_default_icon r e x).rect.right_top,
        (CommonCollapse.paint_default_icon r e x).rect.center_bottom]
    ∧ (CommonCollapse.paint_default_icon r e x).rotation_center =
      (CommonCollapse.paint_default_icon r e x).rect.center
    ∧ (CommonCollapse.paint_default_icon r e x).rotation_center = r.center
    ∧ (CommonCollapse.paint_default_icon r e x).angle_turns = remap x 0 1 (-(1 / 4)) 0
    ∧ (CommonCollapse.paint_default_icon r e 0).angle_turns = -(1 / 4)
    ∧ (CommonCollapse.paint_default_icon r e 1).angle_turns = 0
    ∧ (CommonCollapse.paint_default_icon r e (lerp a b t)).angle_turns =
      lerp (CommonCollapse.paint_default_icon r e a).angle_turns
        (CommonCollapse.paint_default_icon r e b).angle_turns t := by
  refine ⟨rfl, rfl, rfl, ?_, rfl, ?_, ?_, ?_⟩
  · simp only [CommonCollapse.paint_default_icon, Rect.center, Rect.from_center_size,
      Rect.expand, Rect.width, Rect.height, Pos2.mk.injEq]
    constructor <;> ring
  · simp only [CommonCollapse.paint_default_icon, remap, lerp]
    ring
  · simp only [CommonCollapse.paint_default_icon, remap, lerp]
    ring
  · simp only [CommonCollapse.paint_default_icon, remap, lerp]
    ring

/-- C10: every `CollapsingResponse` produced by `show_dyn` (hence by `show`
and `show_unindented`) has `body_response` present exactly when
`body_returned` is present: both fields are filled together from the body
renderer's optional result. -/
theorem collapsing_response_body_fields_agree {σ R : Type} (mv : Bool) (ctx : Context)
    (id : WidgetId) (d : Bool) («open» : Option Bool) (ev : Option WidgetDisplayEvent)
    (clicked : Bool) (ui : UiY) (add_body : UiY → σ → R × ℚ × σ) (s0 : σ) (indented : Bool) :
    match CollapsingHeader.show_dyn mv ctx id d «open» ev clicked ui add_body s0 indented with
    | Except.ok p => p.1.body_response.isSome = p.1.body_returned.isSome
    | Except.error _ => True := by
  simp only [CollapsingHeader.show_dyn, Ui.vertical_child_is_vertical, CollapsingHeader.begin,
    if_true]
  split
  next p heq =>
    split at heq <;> (injection heq with h; subst h; rfl)
  next heq => trivial
